import Mathlib

/-!
# Verification of the WebSocket subscription and user-event normalization
# subsystem of a cryptocurrency-exchange client library

This development embeds, in Lean 4, the parts of the library's WebSocket
subsystem that the specification describes:

* the user-data Event Normalizer (`userTransform`, `userEventHandler`):
  the repository ships this in its `websocket` module; that module's source
  file is not part of the source snapshot (only its test suite
  `test/websockets/user.js` is), so the normalizer here is modelled from the
  specification's Event Normalizer section and calibrated against the raw →
  normalized fixtures recorded in that test suite;
* the envelope unwrap performed by the User-Stream Session Manager;
* the Stream Builder's per-frame error isolation, its eager parameter
  validation, and the idempotent cleanup handle over reference-counted
  shared sockets (likewise modelled from the specification, the module
  source being absent from the snapshot);
* the Resilient Socket opener `src/open-websocket.js`, which is present in
  the snapshot and is embedded directly: its option-merge semantics
  (JavaScript spread of caller options over defaults) and its
  ping-listener registration on `open`.

JavaScript values arriving from `JSON.parse` are modelled by the `Json`
inductive below; all numeric fixture fields are integers, so `Int` is used
for the numeric payload. A JavaScript object is a finite list of key/value
pairs with distinct keys (the output of `JSON.parse`); property access is
`lookupField`, and an absent property (JavaScript `undefined`) is `none`.
-/

set_option autoImplicit false

namespace BinanceWs

/-- A parsed JSON value, as produced by `JSON.parse` on a wire frame.
All numbers in the calibration fixtures are integers. -/
inductive Json where
  | str : String → Json
  | num : Int → Json
  | bool : Bool → Json
  | null : Json
  | arr : List Json → Json
  | obj : List (String × Json) → Json

/-- JavaScript property read on a parsed object (first binding wins;
`JSON.parse` output has distinct keys). `none` models `undefined`. -/
def lookupField : List (String × Json) → String → Option Json
  | [], _ => none
  | (k, v) :: rest, key => if k = key then some v else lookupField rest key

/-- Object rest-spread minus one key, as in `const\x20e = m.e; const rest = ...`:
every binding for `key` is dropped, all other bindings kept in order. -/
def removeField (fields : List (String × Json)) (key : String) : List (String × Json) :=
  fields.filter (fun kv => kv.1 ≠ key)

/-- JavaScript property read on an arbitrary value: objects expose their
fields, primitives and arrays expose none of the fields used here. -/
def getProp : Json → String → Option Json
  | Json.obj fields, key => lookupField fields key
  | _, _ => none

/-- JavaScript string coercion of an object key (`out[cur.a] = ...`).
Only the `Json.str` arm is exercised by well-shaped balance entries; the
other arms follow JavaScript `String(v)` for primitives. -/
def jsKeyString : Option Json → String
  | some (Json.str s) => s
  | some (Json.num n) => toString n
  | some (Json.bool b) => cond b "true" "false"
  | some Json.null => "null"
  | some (Json.arr _) => ""
  | some (Json.obj _) => "[object Object]"
  | none => "undefined"

/-- Value of one entry of the `outboundAccountInfo` balances map:
`\x7b available, locked \x7d`. -/
structure AssetBalance where
  available : Option Json
  locked : Option Json

/-- `out[k] = v` on a JavaScript object modelled as an insertion-ordered
association list: overwrite in place if the key exists, else append. -/
def setKey : List (String × AssetBalance) → String → AssetBalance → List (String × AssetBalance)
  | [], k, v => [(k, v)]
  | (k', v') :: rest, k, v =>
    if k' = k then (k, v) :: rest else (k', v') :: setKey rest k v

/-- The `outboundAccountInfo` balances reduction: the balances array is
folded into a map keyed by asset symbol with `\x7b available, locked \x7d`
values (`m.B.reduce((out, cur) => (out[cur.a] = ..., out), \x7b\x7d)`). -/
def balancesToMap (entries : List Json) : List (String × AssetBalance) :=
  entries.foldl
    (fun out cur =>
      setKey out (jsKeyString (getProp cur "a"))
        { available := getProp cur "f", locked := getProp cur "l" })
    []

/-- One normalized balance record of `outboundAccountPosition`. -/
structure PositionBalance where
  asset : Option Json
  free : Option Json
  locked : Option Json

/-- The `outboundAccountPosition` balances mapping: the array shape is
kept, each `\x7ba, f, l\x7d` entry renamed to `\x7basset, free, locked\x7d`. -/
def balancesToArray (entries : List Json) : List PositionBalance :=
  entries.map fun cur =>
    { asset := getProp cur "a", free := getProp cur "f", locked := getProp cur "l" }

/-- Normalized `outboundAccountInfo` event (eventType is the literal
string `account`, not the wire tag). -/
structure AccountInfoEvent where
  eventType : String
  eventTime : Option Json
  makerCommissionRate : Option Json
  takerCommissionRate : Option Json
  buyerCommissionRate : Option Json
  sellerCommissionRate : Option Json
  canTrade : Option Json
  canWithdraw : Option Json
  canDeposit : Option Json
  lastAccountUpdate : Option Json
  balances : List (String × AssetBalance)

/-- Normalized `outboundAccountPosition` event. -/
structure AccountPositionEvent where
  eventType : String
  eventTime : Option Json
  lastAccountUpdate : Option Json
  balances : List PositionBalance

/-- Normalized `balanceUpdate` event. -/
structure BalanceUpdateEvent where
  eventType : String
  eventTime : Option Json
  asset : Option Json
  balanceDelta : Option Json
  clearTime : Option Json

/-- Normalized `executionReport` event. -/
structure ExecutionReportEvent where
  eventType : String
  eventTime : Option Json
  symbol : Option Json
  newClientOrderId : Option Json
  originalClientOrderId : Option Json
  side : Option Json
  orderType : Option Json
  timeInForce : Option Json
  quantity : Option Json
  price : Option Json
  stopPrice : Option Json
  icebergQuantity : Option Json
  orderListId : Option Json
  executionType : Option Json
  orderStatus : Option Json
  orderRejectReason : Option Json
  orderId : Option Json
  orderTime : Option Json
  lastTradeQuantity : Option Json
  totalTradeQuantity : Option Json
  priceLastTrade : Option Json
  commission : Option Json
  commissionAsset : Option Json
  tradeId : Option Json
  isOrderWorking : Option Json
  isBuyerMaker : Option Json
  creationTime : Option Json
  totalQuoteTradeQuantity : Option Json
  lastQuoteTransacted : Option Json
  quoteOrderQuantity : Option Json
  trailingDelta : Option Json
  trailingTime : Option Json

/-- One normalized order reference inside a `listStatus` event. -/
structure ListStatusOrder where
  symbol : Option Json
  orderId : Option Json
  clientOrderId : Option Json

/-- Normalized `listStatus` event. -/
structure ListStatusEvent where
  eventType : String
  eventTime : Option Json
  symbol : Option Json
  orderListId : Option Json
  contingencyType : Option Json
  listStatusType : Option Json
  listOrderStatus : Option Json
  listRejectReason : Option Json
  listClientOrderId : Option Json
  transactionTime : Option Json
  orders : List ListStatusOrder

/-- The Normalized Event delivered to the caller's callback: a closed
tagged union over the recognized user-data event families, with a default
arm (`unknown`) that preserves the original type tag and the remaining
payload fields. -/
inductive UserEvent where
  | account : AccountInfoEvent → UserEvent
  | accountPosition : AccountPositionEvent → UserEvent
  | balanceUpdate : BalanceUpdateEvent → UserEvent
  | executionReport : ExecutionReportEvent → UserEvent
  | listStatus : ListStatusEvent → UserEvent
  | unknown : Option Json → List (String × Json) → UserEvent

/-- Modelled from the spec: the `outboundAccountInfo` normalizer of the
`websocket` module (absent from the snapshot; calibrated against the
`userEvents - outboundAccountInfo` fixture). The wire counters `m, t, b,
s, T, W, D, u` become the descriptive commission/permission/update names,
`eventType` is the literal `account`, and the balances array becomes a
map keyed by asset symbol. -/
def accountBalancesOf (fields : List (String × Json)) : List (String × AssetBalance) :=
  match lookupField fields "B" with
  | some (Json.arr entries) => balancesToMap entries
  | _ => []

def mkAccountInfo (fields : List (String × Json)) : AccountInfoEvent :=
  { eventType := "account"
    eventTime := lookupField fields "E"
    makerCommissionRate := lookupField fields "m"
    takerCommissionRate := lookupField fields "t"
    buyerCommissionRate := lookupField fields "b"
    sellerCommissionRate := lookupField fields "s"
    canTrade := lookupField fields "T"
    canWithdraw := lookupField fields "W"
    canDeposit := lookupField fields "D"
    lastAccountUpdate := lookupField fields "u"
    balances := accountBalancesOf fields }

/-- Modelled from the spec: the `outboundAccountPosition` normalizer
(balances stay an array of `\x7basset, free, locked\x7d` records). -/
def positionBalancesOf (fields : List (String × Json)) : List PositionBalance :=
  match lookupField fields "B" with
  | some (Json.arr entries) => balancesToArray entries
  | _ => []

def mkAccountPosition (fields : List (String × Json)) : AccountPositionEvent :=
  { eventType := "outboundAccountPosition"
    eventTime := lookupField fields "E"
    lastAccountUpdate := lookupField fields "u"
    balances := positionBalancesOf fields }

/-- Modelled from the spec: the `balanceUpdate` normalizer. -/
def mkBalanceUpdate (fields : List (String × Json)) : BalanceUpdateEvent :=
  { eventType := "balanceUpdate"
    eventTime := lookupField fields "E"
    asset := lookupField fields "a"
    balanceDelta := lookupField fields "d"
    clearTime := lookupField fields "T" }

/-- Modelled from the spec: the `executionReport` normalizer (calibrated
against the `executionReport NEW` and `TRADE` fixtures). -/
def mkExecutionReport (fields : List (String × Json)) : ExecutionReportEvent :=
  { eventType := "executionReport"
    eventTime := lookupField fields "E"
    symbol := lookupField fields "s"
    newClientOrderId := lookupField fields "c"
    originalClientOrderId := lookupField fields "C"
    side := lookupField fields "S"
    orderType := lookupField fields "o"
    timeInForce := lookupField fields "f"
    quantity := lookupField fields "q"
    price := lookupField fields "p"
    stopPrice := lookupField fields "P"
    icebergQuantity := lookupField fields "F"
    orderListId := lookupField fields "g"
    executionType := lookupField fields "x"
    orderStatus := lookupField fields "X"
    orderRejectReason := lookupField fields "r"
    orderId := lookupField fields "i"
    orderTime := lookupField fields "T"
    lastTradeQuantity := lookupField fields "l"
    totalTradeQuantity := lookupField fields "z"
    priceLastTrade := lookupField fields "L"
    commission := lookupField fields "n"
    commissionAsset := lookupField fields "N"
    tradeId := lookupField fields "t"
    isOrderWorking := lookupField fields "w"
    isBuyerMaker := lookupField fields "m"
    creationTime := lookupField fields "O"
    totalQuoteTradeQuantity := lookupField fields "Z"
    lastQuoteTransacted := lookupField fields "Y"
    quoteOrderQuantity := lookupField fields "Q"
    trailingDelta := lookupField fields "d"
    trailingTime := lookupField fields "D" }

/-- Modelled from the spec: the `listStatus` normalizer. -/
def mkListStatus (fields : List (String × Json)) : ListStatusEvent :=
  { eventType := "listStatus"
    eventTime := lookupField fields "E"
    symbol := lookupField fields "s"
    orderListId := lookupField fields "g"
    contingencyType := lookupField fields "c"
    listStatusType := lookupField fields "l"
    listOrderStatus := lookupField fields "L"
    listRejectReason := lookupField fields "r"
    listClientOrderId := lookupField fields "C"
    transactionTime := lookupField fields "T"
    orders :=
      match lookupField fields "O" with
      | some (Json.arr os) =>
        os.map fun o =>
          { symbol := getProp o "s", orderId := getProp o "i", clientOrderId := getProp o "c" }
      | _ => [] }

/-- Modelled from the spec: the user-data Event Normalizer of the
`websocket` module (absent from the snapshot). Dispatches on the wire
type tag `e` by string lookup, exactly one arm per recognized event
family; any other tag (or a non-string / missing tag) falls through to
the minimal fallback `\x7b type, ...rest \x7d` that keeps the original tag
value and every remaining payload field. Total: never fails on a
syntactically valid object. -/
def userTransform (fields : List (String × Json)) : UserEvent :=
  match lookupField fields "e" with
  | some (Json.str tag) =>
    if tag = "outboundAccountInfo" then UserEvent.account (mkAccountInfo fields)
    else if tag = "outboundAccountPosition" then
      UserEvent.accountPosition (mkAccountPosition fields)
    else if tag = "balanceUpdate" then UserEvent.balanceUpdate (mkBalanceUpdate fields)
    else if tag = "executionReport" then UserEvent.executionReport (mkExecutionReport fields)
    else if tag = "listStatus" then UserEvent.listStatus (mkListStatus fields)
    else UserEvent.unknown (some (Json.str tag)) (removeField fields "e")
  | t => UserEvent.unknown t (removeField fields "e")

/-- Modelled from the spec: the user-event handler applied to one parsed
frame. With `transform` enabled it routes through the Event Normalizer;
with it disabled the parsed payload is reshaped only to
`\x7b type, ...rest \x7d`. -/
def userEventHandler (transform : Bool) (fields : List (String × Json)) : UserEvent :=
  if transform then userTransform fields
  else UserEvent.unknown (lookupField fields "e") (removeField fields "e")

/-! ## User-Stream Session Manager: envelope unwrap -/

/-- Modelled from the spec: envelope detection in the User-Stream Session
Manager (its module is absent from the snapshot). Some private-stream
transports wrap the Raw Event as `\x7b subscriptionId, event: \x7b...\x7d \x7d`;
the manager unwraps the inner object when present and passes un-enveloped
payloads through unchanged. -/
def unwrapEnvelope (fields : List (String × Json)) : List (String × Json) :=
  match lookupField fields "event" with
  | some (Json.obj inner) => inner
  | _ => fields

/-- The enveloped form of a raw user-data event. -/
def envelopeOf (sid : Json) (fields : List (String × Json)) : List (String × Json) :=
  [("subscriptionId", sid), ("event", Json.obj fields)]

/-- Modelled from the spec: the private-stream frame handler — unwrap the
envelope if present, then normalize and deliver. -/
def userMessageHandler (fields : List (String × Json)) : UserEvent :=
  userTransform (unwrapEnvelope fields)

/-! ## Stream Builder: per-frame error isolation -/

/-- One inbound wire frame as seen by the Stream Builder's frame listener:
either a frame whose JSON parse or per-topic transform fails, or a
well-formed frame carrying a parsed object. -/
inductive Frame where
  | malformed : Frame
  | wellFormed : List (String × Json) → Frame

/-- The state of one logical Subscription: alive until its cleanup
function is invoked. -/
structure SubscriptionState where
  active : Bool

/-- Modelled from the spec: processing of a single inbound frame. A
parse/transform failure is swallowed: no event is delivered, no error is
thrown to the caller or passed to the callback, and the subscription
state is untouched. A well-formed frame is normalized and delivered. -/
def stepFrame (s : SubscriptionState) : Frame → SubscriptionState × Option UserEvent
  | Frame.malformed => (s, none)
  | Frame.wellFormed fields => (s, some (userMessageHandler fields))

/-- Modelled from the spec: the frame loop of a live subscription. Frames
are processed in arrival order; processing continues only while the
subscription is active, and the callback receives exactly the delivered
events (a malformed frame contributes nothing). -/
def runFrames (s : SubscriptionState) : List Frame → SubscriptionState × List UserEvent
  | [] => (s, [])
  | f :: rest =>
    let step := stepFrame s f
    if step.1.active then
      let tail := runFrames step.1 rest
      (tail.1, step.2.toList ++ tail.2)
    else (step.1, step.2.toList)

/-! ## Stream Builder: eager parameter validation (`candles`) -/

/-- Outcome of a market-data subscribe call: either a synchronous error
(nothing opened, nothing retried) or a subscription, together with the
number of sockets the call opened. -/
structure SubscribeResult where
  outcome : Except String Unit
  socketsOpened : Nat

/-- Modelled from the spec: the `candles` market subscribe entry of the
`websocket` module (absent from the snapshot). It validates that the
symbol list, the interval and the callback are present and throws the
documented message synchronously before any socket is opened; otherwise
one socket per requested symbol is opened. -/
def wsCandles (symbols : Option (List String)) (interval : Option String)
    (hasCallback : Bool) : SubscribeResult :=
  if symbols.isNone || interval.isNone || !hasCallback then
    { outcome := Except.error "Please pass a symbol, interval and callback."
      socketsOpened := 0 }
  else
    { outcome := Except.ok (), socketsOpened := (symbols.getD []).length }

/-! ## Subscription cleanup over reference-counted shared sockets -/

/-- A Resilient Socket shared by several logical subscriptions:
reference-counted, closed only when the last subscriber detaches. The
count is an integer so that an (impossible) double decrement would be
observable as a negative count. -/
structure SharedSocket where
  refCount : Int
  closed : Bool

/-- The caller-side handle of one logical subscription over a shared
socket: whether its frame listener is still attached. -/
structure SubHandle where
  attached : Bool

/-- Modelled from the spec: the cleanup function returned by subscribe.
If the subscription is still attached, detach it, decrement the shared
socket's reference count and close the socket only when that count
reaches zero; a repeated invocation finds the handle detached and does
nothing. Total: it never throws. -/
def cleanupSub : SubHandle × SharedSocket → SubHandle × SharedSocket
  | (sub, sock) =>
    if sub.attached then
      let rc := sock.refCount - 1
      ({ attached := false }, { refCount := rc, closed := sock.closed || decide (rc = 0) })
    else (sub, sock)

/-! ## Resilient Socket opener (`src/open-websocket.js`, present in the
snapshot) -/

/-- Retry budget of the reconnecting transport: a finite count or
`Infinity`. -/
inductive Retries where
  | finite : Nat → Retries
  | infinite : Retries

/-- Caller-supplied options of `open(url, opts)`: each field is `none`
when the caller did not supply it. The transport-constructor override
(proxy support) is environment selection and not modelled. -/
structure WsOpts where
  connectionTimeout : Option Nat
  debug : Option Bool
  maxReconnectionDelay : Option Nat
  maxRetries : Option Retries
  minReconnectionDelay : Option Nat

/-- The effective options handed to the reconnecting transport. -/
structure WsEffective where
  connectionTimeout : Nat
  debug : Bool
  maxReconnectionDelay : Nat
  maxRetries : Retries
  minReconnectionDelay : Nat

/-- The `wsOptions` object of `open-websocket.js`: the defaults
`connectionTimeout: 4e3, debug: false, maxReconnectionDelay: 10e3,
maxRetries: Infinity, minReconnectionDelay: 4e3` with the caller's
options spread over them (`...opts`), so every supplied field overrides
its default. -/
def mkWsOptions (opts : WsOpts) : WsEffective :=
  { connectionTimeout :=
      match opts.connectionTimeout with
      | some v => v
      | none => 4000
    debug :=
      match opts.debug with
      | some v => v
      | none => false
    maxReconnectionDelay :=
      match opts.maxReconnectionDelay with
      | some v => v
      | none => 10000
    maxRetries :=
      match opts.maxRetries with
      | some v => v
      | none => Retries.infinite
    minReconnectionDelay :=
      match opts.minReconnectionDelay with
      | some v => v
      | none => 4000 }

/-- Modelled from the spec: the reconnection delay of the transport — an
increasing backoff kept between the configured minimum and maximum
reconnection delay (the reconnecting-transport library is an external
collaborator, so only its documented clamp is modelled). -/
def backoffDelay (minDelay maxDelay raw : Nat) : Nat :=
  max minDelay (min maxDelay raw)

/-- Transport-level events reaching the opened socket. -/
inductive SockEvent where
  | open : SockEvent
  | ping : SockEvent
  | message : Json → SockEvent

/-- State of one Resilient Socket: whether the connection is open and
whether the `ping` listener of `open-websocket.js` has been registered
(it is registered in the `open` handler, when the underlying transport
exposes the Node-style `.on` listener hook). -/
structure SockState where
  isOpen : Bool
  pingHandlerRegistered : Bool

/-- What one transport event produces: pong frames written back to the
transport, and payloads delivered to the frame listener (and thence to
the subscription callback). -/
structure SockOut where
  pongsSent : Nat
  callbackDeliveries : List Json

/-- Embedding of the event wiring of `open-websocket.js`: on `open` the
`ping` listener is registered when the transport has the `.on` hook
(`hasOn`); a transport-level `ping` makes the registered listener call
`pong` and delivers nothing to the frame listener; a `message` is
delivered to the frame listener and sends no pong. -/
def stepSocket (hasOn : Bool) (s : SockState) :
    SockEvent → SockState × SockOut
  | SockEvent.open =>
    ({ isOpen := true, pingHandlerRegistered := s.pingHandlerRegistered || hasOn },
      { pongsSent := 0, callbackDeliveries := [] })
  | SockEvent.ping =>
    (s, { pongsSent := if s.pingHandlerRegistered then 1 else 0, callbackDeliveries := [] })
  | SockEvent.message d =>
    (s, { pongsSent := 0, callbackDeliveries := [d] })

/-! ## Calibration fixtures (from `test/websockets/user.js`) -/

/-- A raw balances-array entry `\x7ba, f, l\x7d`. -/
def mkBalanceEntry (a : String) (f l : Json) : Json :=
  Json.obj [("a", Json.str a), ("f", f), ("l", l)]

/-- The documented raw `balanceUpdate` fixture. -/
def balanceUpdateFixture : List (String × Json) :=
  [("e", Json.str "balanceUpdate"),
   ("E", Json.num 1573200697110),
   ("a", Json.str "BTC"),
   ("d", Json.str "100.00000000"),
   ("T", Json.num 1573200697068)]

/-- The raw `outboundAccountInfo` fixture's balance triples. -/
def accountInfoBalances : List (String × Json × Json) :=
  [("LTC", Json.str "17366.18538083", Json.str "0.00000000"),
   ("BTC", Json.str "10537.85314051", Json.str "2.19464093"),
   ("ETH", Json.str "17902.35190619", Json.str "0.00000000"),
   ("BNC", Json.str "1114503.29769312", Json.str "0.00000000"),
   ("NEO", Json.str "0.00000000", Json.str "0.00000000")]

/-- The documented raw `outboundAccountInfo` fixture. -/
def accountInfoFixture : List (String × Json) :=
  [("e", Json.str "outboundAccountInfo"),
   ("E", Json.num 1499405658849),
   ("m", Json.num 0),
   ("t", Json.num 0),
   ("b", Json.num 0),
   ("s", Json.num 0),
   ("T", Json.bool true),
   ("W", Json.bool true),
   ("D", Json.bool true),
   ("u", Json.num 1499405658849),
   ("B", Json.arr (accountInfoBalances.map fun x => mkBalanceEntry x.1 x.2.1 x.2.2))]

/-- The raw `outboundAccountPosition` fixture's balance triples. -/
def accountPositionBalances : List (String × Json × Json) :=
  [("ETH", Json.str "10000.000000", Json.str "0.000000")]

/-- The documented raw `outboundAccountPosition` fixture. -/
def accountPositionFixture : List (String × Json) :=
  [("e", Json.str "outboundAccountPosition"),
   ("E", Json.num 1564034571105),
   ("u", Json.num 1564034571073),
   ("B", Json.arr (accountPositionBalances.map fun x => mkBalanceEntry x.1 x.2.1 x.2.2))]

/-- The documented unknown-tag fixture. -/
def unknownTagFixture : List (String × Json) :=
  [("e", Json.str "totallyNewEvent"), ("yolo", Json.num 42)]

/-- The raw `executionReport` fixture carried inside the documented
wrapped (enveloped) frame. -/
def executionReportFixture : List (String × Json) :=
  [("e", Json.str "executionReport"),
   ("E", Json.num 1499405658658),
   ("s", Json.str "ETHBTC"),
   ("c", Json.str "mUvoqJxFIILMdfAW5iGSOW"),
   ("S", Json.str "BUY"),
   ("o", Json.str "LIMIT"),
   ("f", Json.str "GTC"),
   ("q", Json.str "1.00000000"),
   ("p", Json.str "0.10264410"),
   ("P", Json.str "0.00000000"),
   ("F", Json.str "0.00000000"),
   ("g", Json.num (-1)),
   ("C", Json.str "null"),
   ("x", Json.str "NEW"),
   ("X", Json.str "NEW"),
   ("r", Json.str "NONE"),
   ("i", Json.num 4293153),
   ("l", Json.str "0.00000000"),
   ("z", Json.str "0.00000000"),
   ("L", Json.str "0.00000000"),
   ("n", Json.str "0"),
   ("N", Json.null),
   ("T", Json.num 1499405658657),
   ("t", Json.num (-1)),
   ("I", Json.num 8641984),
   ("w", Json.bool true),
   ("m", Json.bool false),
   ("M", Json.bool false),
   ("O", Json.num 1499405658657),
   ("Q", Json.num 0),
   ("Y", Json.num 0),
   ("Z", Json.str "0.00000000")]

/-! ## Helper lemmas about the balances reduction -/

lemma setKey_fresh (acc : List (String × AssetBalance)) (k : String) (v : AssetBalance)
    (h : k ∉ acc.map Prod.fst) : setKey acc k v = acc ++ [(k, v)] := by
  induction acc with
  | nil => rfl
  | cons hd tl ih =>
    simp only [List.map_cons, List.mem_cons] at h
    push_neg at h
    simp only [setKey, if_neg (Ne.symm h.1), List.cons_append]
    exact congrArg _ (ih h.2)

lemma balancesToMap_foldl (l : List (String × Json × Json)) :
    ∀ acc : List (String × AssetBalance),
      (∀ x ∈ l, x.1 ∉ acc.map Prod.fst) → (l.map Prod.fst).Nodup →
      List.foldl
        (fun out cur =>
          setKey out (jsKeyString (getProp cur "a"))
            { available := getProp cur "f", locked := getProp cur "l" })
        acc (l.map fun x => mkBalanceEntry x.1 x.2.1 x.2.2) =
      acc ++ l.map (fun x => (x.1, AssetBalance.mk (some x.2.1) (some x.2.2))) := by
  induction l with
  | nil => intro acc _ _; simp
  | cons x xs ih =>
    intro acc hfresh hnodup
    have hget : getProp (mkBalanceEntry x.1 x.2.1 x.2.2) "a" = some (Json.str x.1) := rfl
    have hgf : getProp (mkBalanceEntry x.1 x.2.1 x.2.2) "f" = some x.2.1 := rfl
    have hgl : getProp (mkBalanceEntry x.1 x.2.1 x.2.2) "l" = some x.2.2 := rfl
    simp only [List.map_cons, List.foldl_cons, hget, hgf, hgl]
    have hx : x.1 ∉ acc.map Prod.fst := hfresh x (List.mem_cons_self x xs)
    rw [show jsKeyString (some (Json.str x.1)) = x.1 from rfl, setKey_fresh acc x.1 _ hx]
    have hnd := hnodup
    simp only [List.map_cons, List.nodup_cons] at hnd
    rw [ih (acc ++ [(x.1, AssetBalance.mk (some x.2.1) (some x.2.2))]) ?_ hnd.2]
    · simp
    · intro y hy
      simp only [List.map_append, List.mem_append, List.map_cons, List.map_nil,
        List.mem_singleton]
      rintro (hmem | hmem)
      · exact hfresh y (List.mem_cons_of_mem x hy) hmem
      · exact hnd.1 (hmem ▸ List.mem_map_of_mem Prod.fst hy)

/-- On a balances array of well-shaped `\x7ba, f, l\x7d` entries with
pairwise distinct asset symbols, the `outboundAccountInfo` reduction is
exactly the asset-keyed map of `\x7bavailable, locked\x7d` pairs. -/
lemma balancesToMap_wellShaped (l : List (String × Json × Json))
    (h : (l.map Prod.fst).Nodup) :
    balancesToMap (l.map fun x => mkBalanceEntry x.1 x.2.1 x.2.2) =
      l.map (fun x => (x.1, AssetBalance.mk (some x.2.1) (some x.2.2))) := by
  have := balancesToMap_foldl l [] (by intro x _; simp) h
  simpa [balancesToMap] using this

/-- The `outboundAccountPosition` mapping on well-shaped entries. -/
lemma balancesToArray_wellShaped (l : List (String × Json × Json)) :
    balancesToArray (l.map fun x => mkBalanceEntry x.1 x.2.1 x.2.2) =
      l.map (fun x => PositionBalance.mk (some (Json.str x.1)) (some x.2.1) (some x.2.2)) := by
  rw [balancesToArray, List.map_map]
  rfl

/-! ## Helper lemmas about the frame loop -/

lemma stepFrame_state (s : SubscriptionState) (f : Frame) : (stepFrame s f).1 = s := by
  cases f <;> rfl

lemma runFrames_state (s : SubscriptionState) (l : List Frame) : (runFrames s l).1 = s := by
  induction l with
  | nil => rfl
  | cons f rest ih =>
    cases f <;> simp only [runFrames, stepFrame] <;>
      by_cases h : s.active <;> simp [h, ih]

lemma runFrames_append (s : SubscriptionState) (hs : s.active = true) (a b : List Frame) :
    (runFrames s (a ++ b)).2 = (runFrames s a).2 ++ (runFrames s b).2 := by
  induction a with
  | nil => simp [runFrames]
  | cons f rest ih =>
    cases f <;> simp [runFrames, stepFrame, hs, ih]

/-! ## Claim theorems -/

/-- C1: feeding the documented raw `balanceUpdate` fixture
`\x7be:'balanceUpdate', E:1573200697110, a:'BTC', d:'100.00000000',
T:1573200697068\x7d` through the user-event normalizer with transform
enabled yields exactly `\x7beventType:'balanceUpdate',
eventTime:1573200697110, asset:'BTC', balanceDelta:'100.00000000',
clearTime:1573200697068\x7d`, field-for-field: the normalized record has
no further fields, and the delta stays the original string value. -/
theorem balanceUpdate_fixture_roundtrip :
    userEventHandler true balanceUpdateFixture =
      UserEvent.balanceUpdate
        { eventType := "balanceUpdate"
          eventTime := some (Json.num 1573200697110)
          asset := some (Json.str "BTC")
          balanceDelta := some (Json.str "100.00000000")
          clearTime := some (Json.num 1573200697068) } := rfl

/-- C2: for every syntactically valid raw user-data event whose type tag
is none of the recognized event-family tags, the normalizer does not fail
and returns the fallback object carrying the original tag value under
`type` together with every remaining payload field minus the tag field. -/
theorem unknown_tag_fallback (fields : List (String × Json)) (tag : String)
    (he : lookupField fields "e" = some (Json.str tag))
    (h1 : tag ≠ "outboundAccountInfo") (h2 : tag ≠ "outboundAccountPosition")
    (h3 : tag ≠ "balanceUpdate") (h4 : tag ≠ "executionReport")
    (h5 : tag ≠ "listStatus") :
    userTransform fields =
      UserEvent.unknown (some (Json.str tag)) (removeField fields "e") := by
  simp only [userTransform, he]
  simp [h1, h2, h3, h4, h5]

/-- C2 witness: `\x7be:'totallyNewEvent', yolo:42\x7d` normalizes to
`\x7btype:'totallyNewEvent', yolo:42\x7d`. -/
theorem unknown_tag_fallback_witness :
    userTransform unknownTagFixture =
      UserEvent.unknown (some (Json.str "totallyNewEvent")) [("yolo", Json.num 42)] :=
  unknown_tag_fallback unknownTagFixture "totallyNewEvent" rfl
    (by decide) (by decide) (by decide) (by decide) (by decide)

/-- C3: an `outboundAccountInfo` event carrying a balances array of
well-shaped `\x7ba, f, l\x7d` entries normalizes its balances to a map
keyed by asset symbol with `\x7bavailable, locked\x7d` values, while an
`outboundAccountPosition` event carrying the same-shaped array keeps its
balances as an array of `\x7basset, free, locked\x7d` records; the two
output shapes live in distinct constructors of the normalized event type
and are never unified. -/
theorem outbound_account_asymmetry
    (fi fp : List (String × Json)) (li lp : List (String × Json × Json))
    (hie : lookupField fi "e" = some (Json.str "outboundAccountInfo"))
    (hib : lookupField fi "B" =
      some (Json.arr (li.map fun x => mkBalanceEntry x.1 x.2.1 x.2.2)))
    (hnd : (li.map Prod.fst).Nodup)
    (hpe : lookupField fp "e" = some (Json.str "outboundAccountPosition"))
    (hpb : lookupField fp "B" =
      some (Json.arr (lp.map fun x => mkBalanceEntry x.1 x.2.1 x.2.2))) :
    userTransform fi =
      UserEvent.account
        { eventType := "account"
          eventTime := lookupField fi "E"
          makerCommissionRate := lookupField fi "m"
          takerCommissionRate := lookupField fi "t"
          buyerCommissionRate := lookupField fi "b"
          sellerCommissionRate := lookupField fi "s"
          canTrade := lookupField fi "T"
          canWithdraw := lookupField fi "W"
          canDeposit := lookupField fi "D"
          lastAccountUpdate := lookupField fi "u"
          balances :=
            li.map fun x => (x.1, AssetBalance.mk (some x.2.1) (some x.2.2)) } ∧
    userTransform fp =
      UserEvent.accountPosition
        { eventType := "outboundAccountPosition"
          eventTime := lookupField fp "E"
          lastAccountUpdate := lookupField fp "u"
          balances :=
            lp.map fun x =>
              PositionBalance.mk (some (Json.str x.1)) (some x.2.1) (some x.2.2) } ∧
    (∀ a b, UserEvent.account a ≠ UserEvent.accountPosition b) := by
  refine ⟨?_, ?_, fun a b h => UserEvent.noConfusion h⟩
  · simp only [userTransform, hie]
    rw [if_pos trivial]
    simp only [mkAccountInfo, accountBalancesOf, hib]
    rw [balancesToMap_wellShaped li hnd]
  · simp only [userTransform, hpe]
    rw [if_pos trivial]
    simp only [mkAccountPosition, positionBalancesOf, hpb]
    rw [balancesToArray_wellShaped lp, if_neg (by decide)]

/-- C3 witness: the documented `outboundAccountInfo` and
`outboundAccountPosition` fixtures produce, respectively, the asset-keyed
balances map and the balances array of the test file. -/
theorem outbound_account_asymmetry_witness :
    userTransform accountInfoFixture =
      UserEvent.account
        { eventType := "account"
          eventTime := some (Json.num 1499405658849)
          makerCommissionRate := some (Json.num 0)
          takerCommissionRate := some (Json.num 0)
          buyerCommissionRate := some (Json.num 0)
          sellerCommissionRate := some (Json.num 0)
          canTrade := some (Json.bool true)
          canWithdraw := some (Json.bool true)
          canDeposit := some (Json.bool true)
          lastAccountUpdate := some (Json.num 1499405658849)
          balances :=
            [("LTC", AssetBalance.mk (some (Json.str "17366.18538083"))
                (some (Json.str "0.00000000"))),
             ("BTC", AssetBalance.mk (some (Json.str "10537.85314051"))
                (some (Json.str "2.19464093"))),
             ("ETH", AssetBalance.mk (some (Json.str "17902.35190619"))
                (some (Json.str "0.00000000"))),
             ("BNC", AssetBalance.mk (some (Json.str "1114503.29769312"))
                (some (Json.str "0.00000000"))),
             ("NEO", AssetBalance.mk (some (Json.str "0.00000000"))
                (some (Json.str "0.00000000")))] } ∧
    userTransform accountPositionFixture =
      UserEvent.accountPosition
        { eventType := "outboundAccountPosition"
          eventTime := some (Json.num 1564034571105)
          lastAccountUpdate := some (Json.num 1564034571073)
          balances :=
            [PositionBalance.mk (some (Json.str "ETH"))
              (some (Json.str "10000.000000")) (some (Json.str "0.000000"))] } := by
  have h := outbound_account_asymmetry accountInfoFixture accountPositionFixture
    accountInfoBalances accountPositionBalances rfl rfl (by decide) rfl rfl
  exact ⟨h.1, h.2.1⟩

/-- C4: delivering the enveloped frame `\x7bsubscriptionId, event: x\x7d`
on a private user stream produces the same Normalized Event as delivering
the raw event `x` directly: the envelope is detected and unwrapped before
normalization, so envelope presence never alters the normalized result
(the hypothesis states that `x` is a raw wire event, keyed by short field
codes and hence without an `event` field of its own). -/
theorem envelope_unwrap_preserves_normalization
    (fields : List (String × Json)) (sid : Json)
    (h : lookupField fields "event" = none) :
    userMessageHandler (envelopeOf sid fields) = userMessageHandler fields := by
  simp only [userMessageHandler, unwrapEnvelope, envelopeOf, lookupField, h]
  simp

/-- C4 witness: the documented wrapped `executionReport` frame and the
bare `executionReport` event normalize identically. -/
theorem envelope_unwrap_preserves_normalization_witness :
    userMessageHandler (envelopeOf (Json.num 0) executionReportFixture) =
      userMessageHandler executionReportFixture :=
  envelope_unwrap_preserves_normalization executionReportFixture (Json.num 0) rfl

/-- C5: a frame whose JSON parse or per-topic transform fails is confined
to that frame: the subscription stays active, nothing is thrown or
delivered to the callback for it (the frame loop is a total function
whose only outputs are normalized events), and the next well-formed frame
is still normalized and delivered in order. -/
theorem malformed_frame_isolated (s : SubscriptionState) (pre rest : List Frame)
    (fields : List (String × Json)) (hs : s.active = true) :
    (runFrames s (pre ++ Frame.malformed :: Frame.wellFormed fields :: rest)).2 =
      (runFrames s pre).2 ++ userMessageHandler fields :: (runFrames s rest).2 ∧
    (runFrames s (pre ++ Frame.malformed :: Frame.wellFormed fields :: rest)).1.active
      = true := by
  constructor
  · rw [show Frame.malformed :: Frame.wellFormed fields :: rest =
        [Frame.malformed, Frame.wellFormed fields] ++ rest from rfl,
      runFrames_append s hs, runFrames_append s hs]
    simp [runFrames, stepFrame, hs]
  · rw [runFrames_state]
    exact hs

/-- C5 witness: one malformed frame followed by the well-formed
`balanceUpdate` fixture still delivers the fixture's normalized event and
leaves the subscription active. -/
theorem malformed_frame_isolated_witness :
    (runFrames ⟨true⟩ [Frame.malformed, Frame.wellFormed balanceUpdateFixture]).2 =
      [userMessageHandler balanceUpdateFixture] ∧
    (runFrames ⟨true⟩ [Frame.malformed, Frame.wellFormed balanceUpdateFixture]).1.active
      = true := by
  have h := malformed_frame_isolated ⟨true⟩ [] [] balanceUpdateFixture rfl
  exact ⟨h.1, h.2⟩

/-- C6: a market-data `candles` subscribe call missing a required
parameter (symbol list, interval or callback) — in particular a call
without an interval — returns the synchronous error with the descriptive
message, and zero sockets are opened (so the error can only be raised
eagerly, never delivered asynchronously over a socket, and nothing is
retried). -/
theorem candles_missing_param_throws (symbols : Option (List String))
    (interval : Option String) (hasCallback : Bool)
    (h : symbols = none ∨ interval = none ∨ hasCallback = false) :
    wsCandles symbols interval hasCallback =
      { outcome := Except.error "Please pass a symbol, interval and callback."
        socketsOpened := 0 } := by
  rcases h with h | h | h <;> simp [wsCandles, h]

/-- C6 witness: `candles('ETHBTC', callback)` — a callback but no
interval — throws the documented message synchronously with no socket
opened. -/
theorem candles_missing_param_throws_witness :
    wsCandles (some ["ETHBTC"]) none true =
      { outcome := Except.error "Please pass a symbol, interval and callback."
        socketsOpened := 0 } :=
  candles_missing_param_throws (some ["ETHBTC"]) none true (Or.inr (Or.inl rfl))

/-- C7: the cleanup function of a Subscription is idempotent — a second
invocation is a no-op (it never throws: `cleanupSub` is total), and over
a socket shared with other live subscriptions the second call neither
decrements the reference count again (so it stays positive) nor closes
the socket out from under the remaining subscribers. -/
theorem cleanup_idempotent (sub : SubHandle) (sock : SharedSocket) :
    cleanupSub (cleanupSub (sub, sock)) = cleanupSub (sub, sock) ∧
    (sub.attached = true → 2 ≤ sock.refCount → sock.closed = false →
      (cleanupSub (cleanupSub (sub, sock))).2.refCount = sock.refCount - 1 ∧
      1 ≤ (cleanupSub (cleanupSub (sub, sock))).2.refCount ∧
      (cleanupSub (cleanupSub (sub, sock))).2.closed = false) := by
  constructor
  · by_cases h : sub.attached <;> simp [cleanupSub, h]
  · intro ha hrc hcl
    have hne : ¬(sock.refCount - 1 = 0) := by omega
    have hd : cleanupSub (cleanupSub (sub, sock)) = cleanupSub (sub, sock) := by
      simp [cleanupSub, ha]
    rw [hd]
    refine ⟨by simp [cleanupSub, ha], ?_, by simp [cleanupSub, ha, hcl, hne]⟩
    simp [cleanupSub, ha]
    omega

/-- C7 witness: on a socket shared by two subscriptions, cleaning one of
them up twice leaves the count at one and the socket open. -/
theorem cleanup_idempotent_witness :
    cleanupSub (cleanupSub (⟨true⟩, ⟨2, false⟩)) = cleanupSub (⟨true⟩, ⟨2, false⟩) ∧
    (cleanupSub (cleanupSub (⟨true⟩, ⟨2, false⟩))).2.refCount = 1 ∧
    (cleanupSub (cleanupSub (⟨true⟩, ⟨2, false⟩))).2.closed = false := by
  have h := cleanup_idempotent ⟨true⟩ ⟨2, false⟩
  have h2 := h.2 rfl (by decide) rfl
  exact ⟨h.1, h2.1, h2.2.2⟩

/-- C8: `open(url, opts)` hands the transport the effective options
`connectionTimeout = 4000`, `minReconnectionDelay = 4000`,
`maxReconnectionDelay = 10000` and `maxRetries = Infinity` as defaults,
with every caller-supplied option overriding the corresponding default
(the JavaScript spread `...opts`); consequently, whenever the configured
minimum does not exceed the configured maximum, every reconnection
backoff delay lies between them. -/
theorem open_websocket_effective_options (opts : WsOpts) :
    (mkWsOptions opts).connectionTimeout = opts.connectionTimeout.getD 4000 ∧
    (mkWsOptions opts).minReconnectionDelay = opts.minReconnectionDelay.getD 4000 ∧
    (mkWsOptions opts).maxReconnectionDelay = opts.maxReconnectionDelay.getD 10000 ∧
    (mkWsOptions opts).maxRetries = opts.maxRetries.getD Retries.infinite ∧
    ((mkWsOptions opts).minReconnectionDelay ≤ (mkWsOptions opts).maxReconnectionDelay →
      ∀ raw,
        (mkWsOptions opts).minReconnectionDelay ≤
          backoffDelay (mkWsOptions opts).minReconnectionDelay
            (mkWsOptions opts).maxReconnectionDelay raw ∧
        backoffDelay (mkWsOptions opts).minReconnectionDelay
            (mkWsOptions opts).maxReconnectionDelay raw ≤
          (mkWsOptions opts).maxReconnectionDelay) := by
  obtain ⟨ct, db, mxd, mr, mnd⟩ := opts
  refine ⟨?_, ?_, ?_, ?_, ?_⟩
  · cases ct <;> rfl
  · cases mnd <;> rfl
  · cases mxd <;> rfl
  · cases mr <;> rfl
  · intro hle raw
    unfold backoffDelay
    omega

/-- C8 witness: with no caller options the effective values are exactly
the defaults, and a large raw backoff value is clamped into
`[4000, 10000]`. -/
theorem open_websocket_effective_options_witness :
    (mkWsOptions ⟨none, none, none, none, none⟩).connectionTimeout = 4000 ∧
    (mkWsOptions ⟨none, none, none, none, none⟩).minReconnectionDelay = 4000 ∧
    (mkWsOptions ⟨none, none, none, none, none⟩).maxReconnectionDelay = 10000 ∧
    (mkWsOptions ⟨none, none, none, none, none⟩).maxRetries = Retries.infinite ∧
    4000 ≤ backoffDelay 4000 10000 123456 ∧ backoffDelay 4000 10000 123456 ≤ 10000 := by
  have h := open_websocket_effective_options ⟨none, none, none, none, none⟩
  have hb := h.2.2.2.2 (by decide) 123456
  exact ⟨h.1, h.2.1, h.2.2.1, h.2.2.2.1, hb.1, hb.2⟩

/-- C9: once a Resilient Socket connection has reached the open state
(the `open` handler registered the `ping` listener on a transport
exposing the Node-style hook), a transport-level ping is answered with
exactly one pong, delivers nothing to the subscription callback and
leaves the socket state unchanged; and the `open` transition itself
registers the listener. -/
theorem ping_pong_after_open (s s' : SockState)
    (h : s.pingHandlerRegistered = true) :
    (stepSocket true s SockEvent.ping).2.pongsSent = 1 ∧
    (stepSocket true s SockEvent.ping).2.callbackDeliveries = [] ∧
    (stepSocket true s SockEvent.ping).1 = s ∧
    (stepSocket true s' SockEvent.open).1.pingHandlerRegistered = true := by
  refine ⟨?_, rfl, rfl, ?_⟩
  · simp [stepSocket, h]
  · simp [stepSocket]

/-- C9 witness: on an open socket with the listener registered, a ping
yields one pong and no callback delivery. -/
theorem ping_pong_after_open_witness :
    (stepSocket true ⟨true, true⟩ SockEvent.ping).2.pongsSent = 1 ∧
    (stepSocket true ⟨true, true⟩ SockEvent.ping).2.callbackDeliveries = [] :=
  ⟨(ping_pong_after_open ⟨true, true⟩ ⟨false, false⟩ rfl).1,
   (ping_pong_after_open ⟨true, true⟩ ⟨false, false⟩ rfl).2.1⟩

/-- C10: every raw event tagged `outboundAccountInfo` normalizes with
`eventType` the literal string `account` (not the wire tag), and with the
wire counters `m, t, b, s, T, W, D, u` renamed to
`makerCommissionRate, takerCommissionRate, buyerCommissionRate,
sellerCommissionRate, canTrade, canWithdraw, canDeposit,
lastAccountUpdate` respectively. -/
theorem account_info_renaming (fields : List (String × Json))
    (he : lookupField fields "e" = some (Json.str "outboundAccountInfo")) :
    userTransform fields =
      UserEvent.account
        { eventType := "account"
          eventTime := lookupField fields "E"
          makerCommissionRate := lookupField fields "m"
          takerCommissionRate := lookupField fields "t"
          buyerCommissionRate := lookupField fields "b"
          sellerCommissionRate := lookupField fields "s"
          canTrade := lookupField fields "T"
          canWithdraw := lookupField fields "W"
          canDeposit := lookupField fields "D"
          lastAccountUpdate := lookupField fields "u"
          balances := accountBalancesOf fields } := by
  simp only [userTransform, he]
  rw [if_pos trivial]
  rfl

/-- C10 witness: the documented `outboundAccountInfo` fixture carries
`eventType 'account'` and the renamed counters. -/
theorem account_info_renaming_witness :
    userTransform accountInfoFixture =
      UserEvent.account
        { eventType := "account"
          eventTime := some (Json.num 1499405658849)
          makerCommissionRate := some (Json.num 0)
          takerCommissionRate := some (Json.num 0)
          buyerCommissionRate := some (Json.num 0)
          sellerCommissionRate := some (Json.num 0)
          canTrade := some (Json.bool true)
          canWithdraw := some (Json.bool true)
          canDeposit := some (Json.bool true)
          lastAccountUpdate := some (Json.num 1499405658849)
          balances := accountBalancesOf accountInfoFixture } :=
  account_info_renaming accountInfoFixture rfl

end BinanceWs
